import Mathlib

/-!
Shallow embedding of the frame-in-flight rendering core of the VulkanStuff
repository (TriangleApp.cpp, Synchronisation.cpp), together with theorems
about its frame scheduler, synchronization-object lifecycle and swapchain
recreation.  Vulkan / GLFW / GLM are external libraries: their calls are
modelled as events in a trace and as oracle inputs (the `VkResult` a call
returns, the framebuffer sizes a poll reads), while the repository's own
control flow and state updates are translated statement by statement.
-/

namespace VulkanStuff

/-- The `VkResult` values distinguished by the frame loop
(`TriangleApp::drawFrame` only tests for `VK_SUCCESS`, `VK_SUBOPTIMAL_KHR`
and `VK_ERROR_OUT_OF_DATE_KHR`; every other value is lumped as
`errorOther`). -/
inductive VkResult where
  | success
  | suboptimalKHR
  | errorOutOfDateKHR
  | errorOther
deriving DecidableEq, Repr

/-- A `VkSemaphore` handle; `id` models the distinct handle value returned by
`vkCreateSemaphore`. -/
structure Semaphore where
  id : Nat
deriving DecidableEq, Repr

/-- A `VkFence` handle together with its host-visible state: `signaled` is the
fence status, `pending` records that a `vkQueueSubmit` has been issued whose
completion will signal the fence. -/
structure Fence where
  id : Nat
  signaled : Bool
  pending : Bool
deriving DecidableEq, Repr

/-- `SyncResources` (TriangleApp.hpp): `imageAvailable` is indexed by frame
slot, `renderFinished` by swapchain image, `inFlight` by frame slot. -/
structure SyncResources where
  imageAvailable : List Semaphore
  renderFinished : List Semaphore
  inFlight : List Fence
deriving DecidableEq, Repr

/-- `Synchronization::createSyncObjects` (Synchronisation.cpp:5-55).
The source resizes the three in-out vectors and then overwrites *every*
element with a newly created handle (the creation loops run over all
indices), so the net effect is three entirely fresh handle lists, whatever
the vectors held before; the previous handles are not destroyed here.
Each fence is created with `VK_FENCE_CREATE_SIGNALED_BIT`
(Synchronisation.cpp:25), hence `signaled := true`.  `nextId` models the
driver handing out fresh handle values; creation order in the source is
imageAvailable, then renderFinished, then the fences. -/
def createSyncObjects (swapChainImageCount maxFramesInFlight : Nat)
    (nextId : Nat) : SyncResources × Nat :=
  let ia := (List.range maxFramesInFlight).map fun i => Semaphore.mk (nextId + i)
  let rf := (List.range swapChainImageCount).map fun i =>
    Semaphore.mk (nextId + maxFramesInFlight + i)
  let fl := (List.range maxFramesInFlight).map fun i =>
    Fence.mk (nextId + maxFramesInFlight + swapChainImageCount + i) true false
  (⟨ia, rf, fl⟩, nextId + 2 * maxFramesInFlight + swapChainImageCount)

/-- Observable actions of one pass through the frame scheduler; handle ids and
indices are recorded as the source passes them to the Vulkan / GLFW calls. -/
inductive Ev where
  | waitFences (fenceId : Nat)
  | acquireNextImage (semId : Nat)
  | resetFences (fenceId : Nat)
  | updateUniform (slot : Nat)
  | resetCommandBuffer (cbId : Nat)
  | recordCommandBuffer (cbId : Nat) (framebufferIndex : Nat) (slot : Nat)
  | queueSubmit (waitSemId signalSemId fenceId : Nat)
  | queuePresent (waitSemId : Nat) (imageIndex : Nat)
  | pollFramebufferSize (w h : Nat)
  | deviceWaitIdle
  | destroyFramebuffer (fbId : Nat)
  | destroyImageView (ivId : Nat)
  | destroySwapchain
  | destroySemaphore (semId : Nat)
  | createSwapchain (w h : Nat) (imageCount : Nat)
  | createSyncObjectsCall
deriving DecidableEq, Repr

/-- The `TriangleApp` state touched by the frame scheduler: the current frame
slot counter, the resize flag set by `frameBufferResizeCallback`, the
synchronization objects, the command buffer handles (allocated once in
`initVulkan`), the swapchain-dependent handle lists and extent, and a fresh
handle counter modelling the driver. -/
structure AppState where
  currentFrame : Nat
  framebufferResized : Bool
  sync : SyncResources
  commandBuffers : List Nat
  imageViews : List Nat
  framebuffers : List Nat
  swapImageCount : Nat
  extentW : Nat
  extentH : Nat
  nextId : Nat
deriving DecidableEq, Repr

/-- `TriangleApp::cleanupSwapChain` (TriangleApp.cpp:460-483): destroys the
framebuffers, the image views, the swapchain, and the per-image
renderFinished semaphores, then clears only `sync.renderFinished`
(the framebuffer / image-view vectors are cleared later, by
`recreateSwapChain` itself). -/
def cleanupSwapChain (s : AppState) : AppState × List Ev :=
  ({ s with sync := { s.sync with renderFinished := [] } },
    s.framebuffers.map Ev.destroyFramebuffer
      ++ s.imageViews.map Ev.destroyImageView
      ++ [Ev.destroySwapchain]
      ++ s.sync.renderFinished.map fun sem => Ev.destroySemaphore sem.id)

/-- The minimized-window loop of `TriangleApp::recreateSwapChain`
(TriangleApp.cpp:400-406): read the framebuffer size, and while it has a zero
component, wait for events and read it again.  `sizes i` is the value the
i-th `glfwGetFramebufferSize` call reports; `fuel` bounds the number of reads
modelled, `none` meaning the loop is still blocked polling after `fuel`
reads. -/
def pollFramebufferSize (sizes : Nat → Nat × Nat) :
    Nat → Nat → Option (Nat × Nat) × List Ev
  | 0, _ => (none, [])
  | fuel + 1, i =>
    let p := sizes i
    if p.1 = 0 ∨ p.2 = 0 then
      let r := pollFramebufferSize sizes fuel (i + 1)
      (r.1, Ev.pollFramebufferSize p.1 p.2 :: r.2)
    else
      (some p, [Ev.pollFramebufferSize p.1 p.2])

/-- Oracle inputs consumed by one `recreateSwapChain` call: the sequence of
framebuffer sizes the minimized-window loop reads, the bound on modelled
reads, and the image count the new swapchain comes back with. -/
structure RecreateInputs where
  sizes : Nat → Nat × Nat
  pollFuel : Nat
  newImageCount : Nat

/-- Modelled from the spec: `SwapChain::createSwapChain` is declared in
SwapChain.hpp but its implementation file is not under src/.  Per §6 of the
spec, `create(surface, desiredExtent) -> (images, extent)`, and
`chooseSwapExtent` "Matches window framebuffer size within min/max limits"
(SwapChain.hpp), so the call is modelled as returning `imageCount` images and
the current drawable extent. -/
def createSwapChain (w h imageCount : Nat) : Nat × (Nat × Nat) :=
  (imageCount, (w, h))

/-- `TriangleApp::recreateSwapChain` (TriangleApp.cpp:397-452): poll until the
framebuffer size is non-zero, wait for the device to idle, destroy the old
swapchain-dependent resources, clear the handle lists, recreate the
swapchain / image views / framebuffers, and call
`Synchronization::createSyncObjects` again.  `none` in the first component
means the minimized-window loop is still blocked (within `pollFuel` reads);
the trace lists the calls issued so far either way.  `vkDeviceWaitIdle`
drains the GPU, so every pending fence becomes signaled before anything is
destroyed. -/
def recreateSwapChain (maxFramesInFlight : Nat) (s : AppState)
    (inp : RecreateInputs) : Option AppState × List Ev :=
  match (pollFramebufferSize inp.sizes inp.pollFuel 0).1 with
  | none => (none, (pollFramebufferSize inp.sizes inp.pollFuel 0).2)
  | some wh =>
    let trPoll := (pollFramebufferSize inp.sizes inp.pollFuel 0).2
    let sIdle : AppState :=
      { s with sync := { s.sync with inFlight := s.sync.inFlight.map fun fc =>
          if fc.pending then { fc with signaled := true, pending := false } else fc } }
    let cleaned := cleanupSwapChain sIdle
    let s2 : AppState :=
      { cleaned.1 with imageViews := [], framebuffers := [], swapImageCount := 0 }
    let created := createSwapChain wh.1 wh.2 inp.newImageCount
    let m := created.1
    let s3 : AppState :=
      { s2 with swapImageCount := m, extentW := created.2.1, extentH := created.2.2 }
    let ivs := (List.range m).map fun i => s3.nextId + i
    let fbs := (List.range m).map fun i => s3.nextId + m + i
    let s4 : AppState :=
      { s3 with imageViews := ivs, framebuffers := fbs, nextId := s3.nextId + 2 * m }
    let syncNew := createSyncObjects s4.swapImageCount maxFramesInFlight s4.nextId
    let s5 : AppState := { s4 with sync := syncNew.1, nextId := syncNew.2 }
    (some s5,
      trPoll ++ [Ev.deviceWaitIdle] ++ cleaned.2
        ++ [Ev.createSwapchain wh.1 wh.2 m, Ev.createSyncObjectsCall])

/-- Oracle inputs consumed by one `drawFrame` call: the result and image index
`vkAcquireNextImageKHR` reports, the results of `vkQueueSubmit` and
`vkQueuePresentKHR`, and the inputs a `recreateSwapChain` call would consume
if this iteration triggers one. -/
structure DrawInputs where
  acquireResult : VkResult
  acquireImageIndex : Nat
  submitResult : VkResult
  presentResult : VkResult
  recreate : RecreateInputs

/-- Outcome of one `drawFrame` call: normal return, a thrown
`std::runtime_error` (which aborts the run loop), or still blocked inside the
minimized-window poll of a triggered `recreateSwapChain`.  Each carries the
trace of calls issued. -/
inductive DrawResult where
  | ok (s : AppState) (tr : List Ev)
  | fatal (msg : String) (tr : List Ev)
  | blocked (tr : List Ev)
deriving DecidableEq, Repr

/-- The trace of calls a `drawFrame` outcome carries. -/
def DrawResult.traceOf : DrawResult → List Ev
  | .ok _ tr => tr
  | .fatal _ tr => tr
  | .blocked tr => tr

/-- Whether a `drawFrame` outcome is a normal return. -/
def DrawResult.isOk : DrawResult → Bool
  | .ok _ _ => true
  | _ => false

/-- Whether a `drawFrame` outcome is a thrown error. -/
def DrawResult.isFatal : DrawResult → Bool
  | .fatal _ _ => true
  | _ => false

/-- Replace the fence at index `i`. -/
def setFence (fences : List Fence) (i : Nat) (upd : Fence → Fence) : List Fence :=
  fences.mapIdx fun j fc => if j = i then upd fc else fc

/-- `vkWaitForFences` on an unsignaled fence with no pending submission that
will ever signal it never returns: the deadlock the signaled-at-creation flag
exists to prevent. -/
def waitWouldDeadlock (fc : Fence) : Bool :=
  !fc.signaled && !fc.pending

/-- `TriangleApp::drawFrame` (TriangleApp.cpp:250-350), one frame iteration:

1. `vkWaitForFences` on slot `currentFrame`'s fence (blocks until it is
   signaled, so afterwards it is signaled and no longer pending);
2. `vkAcquireNextImageKHR` with slot `currentFrame`'s imageAvailable
   semaphore; on `VK_ERROR_OUT_OF_DATE_KHR` recreate the swapchain and
   return; on any result other than success / suboptimal throw;
3. `vkResetFences` on the slot's fence, `updateUniformBuffer(currentFrame)`,
   reset and re-record the slot's command buffer against
   `framebuffers[imageIndex]`;
4. `vkQueueSubmit` waiting on `imageAvailable[currentFrame]`, signaling
   `renderFinished[imageIndex]` and the slot's fence; throw on failure;
5. `vkQueuePresentKHR` waiting on `renderFinished[imageIndex]`; on
   out-of-date / suboptimal / the resize flag, clear the flag and recreate;
   on any other failure throw;
6. advance `currentFrame` to `(currentFrame + 1) % MAX_FRAMES_IN_FLIGHT`. -/
def drawFrame (maxFramesInFlight : Nat) (s0 : AppState) (inp : DrawInputs) :
    DrawResult :=
  let f := s0.currentFrame
  let fenceId := (s0.sync.inFlight.getD f ⟨0, false, false⟩).id
  let waited := setFence s0.sync.inFlight f
    fun fc => { fc with signaled := true, pending := false }
  let s1 : AppState := { s0 with sync := { s0.sync with inFlight := waited } }
  let iaId := (s1.sync.imageAvailable.getD f ⟨0⟩).id
  let tr1 := [Ev.waitFences fenceId, Ev.acquireNextImage iaId]
  let imageIndex := inp.acquireImageIndex
  if inp.acquireResult = VkResult.errorOutOfDateKHR then
    match recreateSwapChain maxFramesInFlight s1 inp.recreate with
    | (none, trR) => .blocked (tr1 ++ trR)
    | (some s2, trR) => .ok s2 (tr1 ++ trR)
  else if inp.acquireResult ≠ VkResult.success
      ∧ inp.acquireResult ≠ VkResult.suboptimalKHR then
    .fatal "failed to acquire swap chain image!" tr1
  else
    let reset := setFence s1.sync.inFlight f fun fc => { fc with signaled := false }
    let s2 : AppState := { s1 with sync := { s1.sync with inFlight := reset } }
    let cbId := s2.commandBuffers.getD f 0
    let rfId := (s2.sync.renderFinished.getD imageIndex ⟨0⟩).id
    let tr2 := tr1 ++ [Ev.resetFences fenceId, Ev.updateUniform f,
      Ev.resetCommandBuffer cbId, Ev.recordCommandBuffer cbId imageIndex f,
      Ev.queueSubmit iaId rfId fenceId]
    if inp.submitResult ≠ VkResult.success then
      .fatal "failed to submit draw command buffer!" tr2
    else
      let submitted := setFence s2.sync.inFlight f fun fc => { fc with pending := true }
      let s3 : AppState := { s2 with sync := { s2.sync with inFlight := submitted } }
      let tr3 := tr2 ++ [Ev.queuePresent rfId imageIndex]
      if inp.presentResult = VkResult.errorOutOfDateKHR
          ∨ inp.presentResult = VkResult.suboptimalKHR
          ∨ s3.framebufferResized then
        let s4 : AppState := { s3 with framebufferResized := false }
        match recreateSwapChain maxFramesInFlight s4 inp.recreate with
        | (none, trR) => .blocked (tr3 ++ trR)
        | (some s5, trR) =>
          .ok { s5 with currentFrame := (s5.currentFrame + 1) % maxFramesInFlight }
            (tr3 ++ trR)
      else if inp.presentResult ≠ VkResult.success then
        .fatal "failed to present swap chain image!" tr3
      else
        .ok { s3 with currentFrame := (s3.currentFrame + 1) % maxFramesInFlight }
          tr3

/-- `MAX_FRAMES_IN_FLIGHT` (TriangleApp.hpp): number of frame slots. -/
def MAX_FRAMES_IN_FLIGHT : Nat := 2

/-- A 3-component float vector (`glm::vec3`); float values are modelled as
exact rationals. -/
structure Vec3 where
  x : ℚ
  y : ℚ
  z : ℚ
deriving DecidableEq, Repr

/-- A 4x4 float matrix (`glm::mat4`); entry `mCR` is column C, row R in GLM's
column-major convention, so `ubo.proj[1][1]` is `m11`. -/
structure Mat4 where
  m00 : ℚ
  m01 : ℚ
  m02 : ℚ
  m03 : ℚ
  m10 : ℚ
  m11 : ℚ
  m12 : ℚ
  m13 : ℚ
  m20 : ℚ
  m21 : ℚ
  m22 : ℚ
  m23 : ℚ
  m30 : ℚ
  m31 : ℚ
  m32 : ℚ
  m33 : ℚ
deriving DecidableEq, Repr

/-- `Buffer::Vertex::UniformBufferObject`: the three transform matrices
written to the mapped uniform memory each frame. -/
structure UniformBufferObject where
  model : Mat4
  view : Mat4
  proj : Mat4
deriving DecidableEq, Repr

/-- GLM is an external library (not part of this repository); the matrix
constructors `updateUniformBuffer` calls are modelled as unspecified but
fixed (hence deterministic) functions, the way its float routines behave:
the same arguments give the same bits. `mat4one` is `glm::mat4(1.0f)`. -/
structure GlmOps where
  radians : ℚ → ℚ
  rotate : Mat4 → ℚ → Vec3 → Mat4
  lookAt : Vec3 → Vec3 → Vec3 → Mat4
  perspective : ℚ → ℚ → ℚ → ℚ → Mat4
  mat4one : Mat4

/-- The state `TriangleApp::updateUniformBuffer` reads and writes: the
function-local static `startTime` (uninitialized until the first call), the
current swapchain extent it reads, and the persistently mapped per-slot
uniform memory it writes. -/
structure AnimState where
  startTime : Option ℚ
  extentW : Nat
  extentH : Nat
  uniformMapped : List (Option UniformBufferObject)

/-- The matrix computation of `TriangleApp::updateUniformBuffer`
(TriangleApp.cpp:370-385) as a function of the elapsed time and the extent:
`model` rotates `glm::mat4(1.0f)` by `time * glm::radians(90.0f)` about the
axis (0,0,1); `view` is `glm::lookAt((2,2,2),(0,0,0),(0,0,1))`; `proj` is
`glm::perspective(glm::radians(45.0f), width / (float)height, 0.1f, 10.0f)`
with entry `[1][1]` negated. -/
def buildUbo (g : GlmOps) (time : ℚ) (extentW extentH : Nat) :
    UniformBufferObject :=
  let model := g.rotate g.mat4one (time * g.radians 90) ⟨0, 0, 1⟩
  let view := g.lookAt ⟨2, 2, 2⟩ ⟨0, 0, 0⟩ ⟨0, 0, 1⟩
  let p := g.perspective (g.radians 45) ((extentW : ℚ) / (extentH : ℚ)) (1 / 10) 10
  { model := model, view := view, proj := { p with m11 := p.m11 * (-1) } }

/-- `TriangleApp::updateUniformBuffer` (TriangleApp.cpp:360-389): the static
`startTime` is initialized with the clock on the first call only; `time` is
the elapsed seconds since then; the matrices built from `time` and the
current extent are copied into the mapped uniform memory of `currentImage`.
`now` is the clock value read by this call (the two clock reads of the very
first call are modelled as one instant).  The written object is returned
alongside the new state. -/
def updateUniformBuffer (g : GlmOps) (s : AnimState) (now : ℚ)
    (currentImage : Nat) : AnimState × UniformBufferObject :=
  let start := s.startTime.getD now
  let time := now - start
  let ubo := buildUbo g time s.extentW s.extentH
  ({ s with startTime := some start,
            uniformMapped := s.uniformMapped.set currentImage (some ubo) },
    ubo)

/-- The synchronization-object part of `TriangleApp::initVulkan`
(TriangleApp.cpp:205-220): command buffers are allocated once
(`MAX_FRAMES_IN_FLIGHT` of them) and `createSyncObjects` is called with the
swapchain image count and `MAX_FRAMES_IN_FLIGHT`. -/
def initialAppState (swapImageCount maxFramesInFlight : Nat) : AppState :=
  let cbs := (List.range maxFramesInFlight).map fun i => 1000 + i
  let ivs := (List.range swapImageCount).map fun i => 2000 + i
  let fbs := (List.range swapImageCount).map fun i => 3000 + i
  let creation := createSyncObjects swapImageCount maxFramesInFlight 0
  { currentFrame := 0
    framebufferResized := false
    sync := creation.1
    commandBuffers := cbs
    imageViews := ivs
    framebuffers := fbs
    swapImageCount := swapImageCount
    extentW := 800
    extentH := 600
    nextId := creation.2 }

/-- The returned state of a normal `drawFrame` outcome. -/
def DrawResult.stateOf : DrawResult → Option AppState
  | .ok s _ => some s
  | _ => none

/-- The message of a thrown `std::runtime_error`, if any. -/
def DrawResult.fatalMsg : DrawResult → Option String
  | .fatal msg _ => some msg
  | _ => none

/-- Per-iteration frame work: the calls `drawFrame` skips when it abandons an
iteration (fence reset, uniform update, command-buffer reset / record,
submit, present). -/
def Ev.isFrameWork : Ev → Bool
  | .resetFences _ => true
  | .updateUniform _ => true
  | .resetCommandBuffer _ => true
  | .recordCommandBuffer _ _ _ => true
  | .queueSubmit _ _ _ => true
  | .queuePresent _ _ => true
  | _ => false

/-- Whether an event is a `vkQueueSubmit`. -/
def Ev.isQueueSubmit : Ev → Bool
  | .queueSubmit _ _ _ => true
  | _ => false

/-- Whether an event is a `vkQueuePresentKHR`. -/
def Ev.isQueuePresent : Ev → Bool
  | .queuePresent _ _ => true
  | _ => false

/-- Whether an event belongs to a swapchain rebuild (the calls
`recreateSwapChain` issues and nothing else issues). -/
def Ev.isRebuild : Ev → Bool
  | .pollFramebufferSize _ _ => true
  | .deviceWaitIdle => true
  | .destroyFramebuffer _ => true
  | .destroyImageView _ => true
  | .destroySwapchain => true
  | .destroySemaphore _ => true
  | .createSwapchain _ _ _ => true
  | .createSyncObjectsCall => true
  | _ => false

/-- A window that always reports the drawable size 800x600. -/
def steadySizes : Nat → Nat × Nat := fun _ => (800, 600)

/-- Recreation inputs for a healthy 800x600 window whose new swapchain has
3 images. -/
def sampleRecreate : RecreateInputs :=
  { sizes := steadySizes, pollFuel := 1, newImageCount := 3 }

/-- A freshly initialized app with 3 swapchain images and 2 frame slots. -/
def sampleState : AppState := initialAppState 3 2

/-- The all-zero matrix, used to instantiate the abstract GLM operations in
concrete evaluations. -/
def mat4zero : Mat4 := ⟨0, 0, 0, 0, 0, 0, 0, 0, 0, 0, 0, 0, 0, 0, 0, 0⟩

/-- A concrete instantiation of the abstract GLM operations (each a constant
function), used to evaluate the animation model on concrete inputs. -/
def constGlm : GlmOps :=
  { radians := fun q => q
    rotate := fun m _ _ => m
    lookAt := fun _ _ _ => mat4zero
    perspective := fun _ _ _ _ => mat4zero
    mat4one := mat4zero }

/-- A concrete animation state: start time captured, 800x600 extent, two
uniform slots. -/
def animS : AnimState :=
  { startTime := some 0, extentW := 800, extentH := 600,
    uniformMapped := [none, none] }

/-- A window minimized for its first 5 size reads, then restored to 800x600. -/
def minimizedSizes : Nat → Nat × Nat := fun i => if i < 5 then (0, 0) else (800, 600)

/-- Recreation inputs that stay inside the minimized-window poll (only 3 of
the needed 6 reads are modelled). -/
def minimizedRecreate : RecreateInputs :=
  { sizes := minimizedSizes, pollFuel := 3, newImageCount := 3 }

/-- Recreation inputs where the window is restored while polling. -/
def recoveredRecreate : RecreateInputs :=
  { sizes := minimizedSizes, pollFuel := 10, newImageCount := 3 }

/-- The fence handle `drawFrame` passes for slot `currentFrame`
(`sync.inFlight[currentFrame]`). -/
def fenceIdOf (s : AppState) : Nat :=
  (s.sync.inFlight.getD s.currentFrame ⟨0, false, false⟩).id

/-- The image-available semaphore handle `drawFrame` passes for slot
`currentFrame` (`sync.imageAvailable[currentFrame]`). -/
def iaIdOf (s : AppState) : Nat :=
  (s.sync.imageAvailable.getD s.currentFrame ⟨0⟩).id

/-- The render-finished semaphore handle for image `ii`
(`sync.renderFinished[imageIndex]`). -/
def rfIdOf (s : AppState) (ii : Nat) : Nat :=
  (s.sync.renderFinished.getD ii ⟨0⟩).id

/-- The command buffer handle for slot `currentFrame`
(`commandBuffers[currentFrame]`). -/
def cbIdOf (s : AppState) : Nat :=
  s.commandBuffers.getD s.currentFrame 0

/-- The state after `drawFrame`'s throttle step: `vkWaitForFences` has
returned, so slot `currentFrame`'s fence is signaled with nothing pending. -/
def afterWait (s : AppState) : AppState :=
  let waited := setFence s.sync.inFlight s.currentFrame
    fun fc => { fc with signaled := true, pending := false }
  { s with sync := { s.sync with inFlight := waited } }

/-- The state after `vkResetFences`: slot `currentFrame`'s fence is
unsignaled. -/
def afterReset (s : AppState) : AppState :=
  let reset := setFence (afterWait s).sync.inFlight s.currentFrame
    fun fc => { fc with signaled := false }
  { afterWait s with sync := { (afterWait s).sync with inFlight := reset } }

/-- The state after `vkQueueSubmit` succeeded: slot `currentFrame`'s fence has
a pending GPU signal. -/
def afterSubmit (s : AppState) : AppState :=
  let submitted := setFence (afterReset s).sync.inFlight s.currentFrame
    fun fc => { fc with pending := true }
  { afterReset s with sync := { (afterReset s).sync with inFlight := submitted } }

/-- The calls issued up to and including acquisition. -/
def trAcq (s : AppState) : List Ev :=
  [Ev.waitFences (fenceIdOf s), Ev.acquireNextImage (iaIdOf s)]

/-- The calls issued up to and including submission of image `ii`. -/
def trSub (s : AppState) (ii : Nat) : List Ev :=
  trAcq s ++ [Ev.resetFences (fenceIdOf s), Ev.updateUniform s.currentFrame,
    Ev.resetCommandBuffer (cbIdOf s), Ev.recordCommandBuffer (cbIdOf s) ii s.currentFrame,
    Ev.queueSubmit (iaIdOf s) (rfIdOf s ii) (fenceIdOf s)]

/-- The calls issued up to and including presentation of image `ii`. -/
def trPres (s : AppState) (ii : Nat) : List Ev :=
  trSub s ii ++ [Ev.queuePresent (rfIdOf s ii) ii]

/-- Advance the slot counter: `currentFrame = (currentFrame + 1) %
MAX_FRAMES_IN_FLIGHT`. -/
def advance (maxFramesInFlight : Nat) (s : AppState) : AppState :=
  { s with currentFrame := (s.currentFrame + 1) % maxFramesInFlight }

/-! ## Helper lemmas -/

theorem pollFramebufferSize_spec (sizes : Nat → Nat × Nat) :
    ∀ fuel i,
      (∀ w h, (pollFramebufferSize sizes fuel i).1 = some (w, h) → w ≠ 0 ∧ h ≠ 0)
      ∧ (∀ e ∈ (pollFramebufferSize sizes fuel i).2,
          ∃ w h, e = Ev.pollFramebufferSize w h) := by
  intro fuel
  induction fuel with
  | zero =>
    intro i
    refine ⟨fun w h hs => ?_, fun e he => ?_⟩
    · simp [pollFramebufferSize] at hs
    · simp [pollFramebufferSize] at he
  | succ n ih =>
    intro i
    by_cases hz : (sizes i).1 = 0 ∨ (sizes i).2 = 0
    · refine ⟨fun w h hs => ?_, fun e he => ?_⟩
      · simp only [pollFramebufferSize, if_pos hz] at hs
        exact (ih (i + 1)).1 w h hs
      · simp only [pollFramebufferSize, if_pos hz, List.mem_cons] at he
        rcases he with rfl | he
        · exact ⟨_, _, rfl⟩
        · exact (ih (i + 1)).2 e he
    · refine ⟨fun w h hs => ?_, fun e he => ?_⟩
      · simp only [pollFramebufferSize, if_neg hz, Option.some_inj] at hs
        push_neg at hz
        rw [hs] at hz
        exact hz
      · simp only [pollFramebufferSize, if_neg hz, List.mem_singleton] at he
        exact ⟨_, _, he⟩

theorem recreateSwapChain_blocked (N : Nat) (s : AppState) (inp : RecreateInputs)
    (h : (pollFramebufferSize inp.sizes inp.pollFuel 0).1 = none) :
    recreateSwapChain N s inp =
      (none, (pollFramebufferSize inp.sizes inp.pollFuel 0).2) := by
  unfold recreateSwapChain
  rw [h]

theorem recreateSwapChain_some (N : Nat) (s : AppState) (inp : RecreateInputs)
    (wh : Nat × Nat)
    (h : (pollFramebufferSize inp.sizes inp.pollFuel 0).1 = some wh) :
    recreateSwapChain N s inp =
      (some { currentFrame := s.currentFrame
              framebufferResized := s.framebufferResized
              sync := (createSyncObjects inp.newImageCount N
                (s.nextId + 2 * inp.newImageCount)).1
              commandBuffers := s.commandBuffers
              imageViews := (List.range inp.newImageCount).map fun i => s.nextId + i
              framebuffers := (List.range inp.newImageCount).map fun i =>
                s.nextId + inp.newImageCount + i
              swapImageCount := inp.newImageCount
              extentW := wh.1
              extentH := wh.2
              nextId := (createSyncObjects inp.newImageCount N
                (s.nextId + 2 * inp.newImageCount)).2 },
        (pollFramebufferSize inp.sizes inp.pollFuel 0).2
          ++ [Ev.deviceWaitIdle]
          ++ (s.framebuffers.map Ev.destroyFramebuffer
              ++ s.imageViews.map Ev.destroyImageView
              ++ [Ev.destroySwapchain]
              ++ s.sync.renderFinished.map fun sem => Ev.destroySemaphore sem.id)
          ++ [Ev.createSwapchain wh.1 wh.2 inp.newImageCount,
              Ev.createSyncObjectsCall]) := by
  unfold recreateSwapChain
  rw [h]
  rfl

theorem rebuild_constructor_facts (e : Ev) (h : e.isRebuild = true) :
    e.isFrameWork = false ∧ e.isQueueSubmit = false ∧ e.isQueuePresent = false := by
  cases e <;> simp_all [Ev.isRebuild, Ev.isFrameWork, Ev.isQueueSubmit, Ev.isQueuePresent]

theorem recreateSwapChain_trace_rebuild (N : Nat) (s : AppState)
    (inp : RecreateInputs) :
    ∀ e ∈ (recreateSwapChain N s inp).2, e.isRebuild = true := by
  cases h : (pollFramebufferSize inp.sizes inp.pollFuel 0).1 with
  | none =>
    rw [recreateSwapChain_blocked N s inp h]
    intro e he
    obtain ⟨w, hh, rfl⟩ := (pollFramebufferSize_spec inp.sizes inp.pollFuel 0).2 e he
    rfl
  | some wh =>
    rw [recreateSwapChain_some N s inp wh h]
    intro e he
    simp only [List.mem_append, List.mem_cons, List.not_mem_nil, or_false,
      List.mem_map] at he
    rcases he with ((hp | rfl) | (((⟨x, hx, rfl⟩ | ⟨x, hx, rfl⟩) | rfl) | ⟨x, hx, rfl⟩))
      | (rfl | rfl)
    · obtain ⟨w, hh, rfl⟩ := (pollFramebufferSize_spec inp.sizes inp.pollFuel 0).2 _ hp
      rfl
    all_goals rfl

/-! ### Branch characterizations of `drawFrame` -/

theorem drawFrame_eq_out_of_date (N : Nat) (s : AppState) (ii : Nat)
    (sr pr : VkResult) (rc : RecreateInputs) :
    drawFrame N s ⟨VkResult.errorOutOfDateKHR, ii, sr, pr, rc⟩ =
      (match recreateSwapChain N (afterWait s) rc with
       | (none, trR) => DrawResult.blocked (trAcq s ++ trR)
       | (some s2, trR) => DrawResult.ok s2 (trAcq s ++ trR)) := rfl

theorem drawFrame_eq_acquire_fatal (N : Nat) (s : AppState) (ii : Nat)
    (sr pr : VkResult) (rc : RecreateInputs) :
    drawFrame N s ⟨VkResult.errorOther, ii, sr, pr, rc⟩ =
      DrawResult.fatal "failed to acquire swap chain image!" (trAcq s) := rfl

theorem drawFrame_eq_submit_fatal (N : Nat) (s : AppState) (ii : Nat)
    (ar sr pr : VkResult) (rc : RecreateInputs)
    (har : ar = VkResult.success ∨ ar = VkResult.suboptimalKHR)
    (hsr : sr ≠ VkResult.success) :
    drawFrame N s ⟨ar, ii, sr, pr, rc⟩ =
      DrawResult.fatal "failed to submit draw command buffer!" (trSub s ii) := by
  rcases har with rfl | rfl <;> cases sr <;>
    first
      | exact absurd rfl hsr
      | rfl

theorem drawFrame_eq_rebuild (N : Nat) (s : AppState) (ii : Nat)
    (ar pr : VkResult) (rc : RecreateInputs)
    (har : ar = VkResult.success ∨ ar = VkResult.suboptimalKHR)
    (hpr : pr = VkResult.errorOutOfDateKHR ∨ pr = VkResult.suboptimalKHR) :
    drawFrame N s ⟨ar, ii, VkResult.success, pr, rc⟩ =
      (match recreateSwapChain N { afterSubmit s with framebufferResized := false } rc with
       | (none, trR) => DrawResult.blocked (trPres s ii ++ trR)
       | (some s5, trR) => DrawResult.ok (advance N s5) (trPres s ii ++ trR)) := by
  rcases har with rfl | rfl <;> rcases hpr with rfl | rfl <;> rfl

theorem drawFrame_eq_rebuild_resized (N : Nat) (cf : Nat) (sy : SyncResources)
    (cb iv fbs : List Nat) (sic ew eh ni : Nat) (ii : Nat) (ar pr : VkResult)
    (rc : RecreateInputs)
    (har : ar = VkResult.success ∨ ar = VkResult.suboptimalKHR) :
    drawFrame N ⟨cf, true, sy, cb, iv, fbs, sic, ew, eh, ni⟩
        ⟨ar, ii, VkResult.success, pr, rc⟩ =
      (match recreateSwapChain N
          { afterSubmit ⟨cf, true, sy, cb, iv, fbs, sic, ew, eh, ni⟩ with
            framebufferResized := false } rc with
       | (none, trR) =>
          DrawResult.blocked (trPres ⟨cf, true, sy, cb, iv, fbs, sic, ew, eh, ni⟩ ii ++ trR)
       | (some s5, trR) =>
          DrawResult.ok (advance N s5)
            (trPres ⟨cf, true, sy, cb, iv, fbs, sic, ew, eh, ni⟩ ii ++ trR)) := by
  rcases har with rfl | rfl <;> cases pr <;> rfl

theorem drawFrame_eq_present_fatal (N : Nat) (cf : Nat) (sy : SyncResources)
    (cb iv fbs : List Nat) (sic ew eh ni : Nat) (ii : Nat) (ar : VkResult)
    (rc : RecreateInputs)
    (har : ar = VkResult.success ∨ ar = VkResult.suboptimalKHR) :
    drawFrame N ⟨cf, false, sy, cb, iv, fbs, sic, ew, eh, ni⟩
        ⟨ar, ii, VkResult.success, VkResult.errorOther, rc⟩ =
      DrawResult.fatal "failed to present swap chain image!"
        (trPres ⟨cf, false, sy, cb, iv, fbs, sic, ew, eh, ni⟩ ii) := by
  rcases har with rfl | rfl <;> rfl

theorem drawFrame_eq_present_ok (N : Nat) (cf : Nat) (sy : SyncResources)
    (cb iv fbs : List Nat) (sic ew eh ni : Nat) (ii : Nat) (ar : VkResult)
    (rc : RecreateInputs)
    (har : ar = VkResult.success ∨ ar = VkResult.suboptimalKHR) :
    drawFrame N ⟨cf, false, sy, cb, iv, fbs, sic, ew, eh, ni⟩
        ⟨ar, ii, VkResult.success, VkResult.success, rc⟩ =
      DrawResult.ok
        (advance N (afterSubmit ⟨cf, false, sy, cb, iv, fbs, sic, ew, eh, ni⟩))
        (trPres ⟨cf, false, sy, cb, iv, fbs, sic, ew, eh, ni⟩ ii) := by
  rcases har with rfl | rfl <;> rfl

/-! ## Claim theorems -/

/-- **C10**: every completion fence is created in the signaled state
(`VK_FENCE_CREATE_SIGNALED_BIT`), both at startup and in the sync-object set
a swapchain rebuild installs, so the first `vkWaitForFences` on any slot's
fence returns without blocking: it never deadlocks on a fence with no
pending submission to signal it. -/
theorem fences_created_signaled_no_deadlock
    (m n k N : Nat) (s : AppState) (inp : RecreateInputs) :
    (∀ fc ∈ (createSyncObjects m n k).1.inFlight,
        fc.signaled = true ∧ waitWouldDeadlock fc = false)
    ∧ (∀ s', (recreateSwapChain N s inp).1 = some s' →
        ∀ fc ∈ s'.sync.inFlight,
          fc.signaled = true ∧ waitWouldDeadlock fc = false) := by
  constructor
  · intro fc hfc
    simp only [createSyncObjects, List.mem_map, List.mem_range] at hfc
    obtain ⟨i, hi, rfl⟩ := hfc
    exact ⟨rfl, rfl⟩
  · intro s' hs' fc hfc
    cases hp : (pollFramebufferSize inp.sizes inp.pollFuel 0).1 with
    | none =>
      rw [recreateSwapChain_blocked N s inp hp] at hs'
      cases hs'
    | some wh =>
      rw [recreateSwapChain_some N s inp wh hp] at hs'
      obtain rfl := Option.some_inj.mp hs'
      simp only [createSyncObjects, List.mem_map, List.mem_range] at hfc
      obtain ⟨i, hi, rfl⟩ := hfc
      exact ⟨rfl, rfl⟩

/-- Witness for C10: the startup fence with handle 5 (3 images, 2 slots) is
signaled at creation and its first wait cannot deadlock. -/
theorem fences_created_signaled_no_deadlock_witness :
    (Fence.mk 5 true false ∈ (createSyncObjects 3 2 0).1.inFlight)
    ∧ (Fence.mk 5 true false).signaled = true
    ∧ waitWouldDeadlock (Fence.mk 5 true false) = false := by
  refine ⟨by decide, ?_, ?_⟩
  · exact ((fences_created_signaled_no_deadlock 3 2 0 2 sampleState sampleRecreate).1
      (Fence.mk 5 true false) (by decide)).1
  · exact ((fences_created_signaled_no_deadlock 3 2 0 2 sampleState sampleRecreate).1
      (Fence.mk 5 true false) (by decide)).2

/-- **C6**: after every swapchain rebuild that completes, the image-indexed
renderFinished signal set has exactly the new swapchain image count, and each
old per-image signal was destroyed (its `vkDestroySemaphore` call issued)
before the call that creates the new set. -/
theorem rebuild_renderFinished_sized_to_new_image_count
    (N : Nat) (s : AppState) (inp : RecreateInputs)
    (h : (recreateSwapChain N s inp).1.isSome = true) :
    ((recreateSwapChain N s inp).1.map fun s' => s'.sync.renderFinished.length)
      = some inp.newImageCount
    ∧ ∃ pre, (recreateSwapChain N s inp).2 = pre ++ [Ev.createSyncObjectsCall]
        ∧ ∀ sem ∈ s.sync.renderFinished, Ev.destroySemaphore sem.id ∈ pre := by
  cases hp : (pollFramebufferSize inp.sizes inp.pollFuel 0).1 with
  | none =>
    rw [recreateSwapChain_blocked N s inp hp] at h
    simp at h
  | some wh =>
    rw [recreateSwapChain_some N s inp wh hp]
    constructor
    · simp [createSyncObjects]
    · refine ⟨(pollFramebufferSize inp.sizes inp.pollFuel 0).2
          ++ [Ev.deviceWaitIdle]
          ++ (s.framebuffers.map Ev.destroyFramebuffer
              ++ s.imageViews.map Ev.destroyImageView
              ++ [Ev.destroySwapchain]
              ++ s.sync.renderFinished.map fun sem => Ev.destroySemaphore sem.id)
          ++ [Ev.createSwapchain wh.1 wh.2 inp.newImageCount], ?_, ?_⟩
      · simp
      · intro sem hsem
        simp only [List.mem_append, List.mem_map]
        exact Or.inl (Or.inr (Or.inr ⟨sem, hsem, rfl⟩))

/-- Witness for C6 at a concrete rebuild: 2 slots, 3 images before and 3
after. -/
theorem rebuild_renderFinished_sized_witness :
    ((recreateSwapChain 2 sampleState sampleRecreate).1.isSome = true)
    ∧ ((recreateSwapChain 2 sampleState sampleRecreate).1.map
        fun s' => s'.sync.renderFinished.length) = some sampleRecreate.newImageCount := by
  exact ⟨by decide,
    (rebuild_renderFinished_sized_to_new_image_count 2 sampleState sampleRecreate
      (by decide)).1⟩

/-- **C7**: during swapchain recreation, while the drawable surface reports a
zero-area extent the rebuild only keeps polling — nothing is destroyed and no
swapchain is created; when it completes, the new extent is non-zero (a
zero-area swapchain is never created) and every poll read precedes every
other call of the rebuild. -/
theorem rebuild_polls_until_nonzero_extent
    (N : Nat) (s : AppState) (inp : RecreateInputs) :
    ((recreateSwapChain N s inp).1 = none →
      ∀ e ∈ (recreateSwapChain N s inp).2, ∃ w h, e = Ev.pollFramebufferSize w h)
    ∧ ((recreateSwapChain N s inp).1.elim True
        fun s' => s'.extentW ≠ 0 ∧ s'.extentH ≠ 0)
    ∧ (∀ w h m, Ev.createSwapchain w h m ∈ (recreateSwapChain N s inp).2 →
        w ≠ 0 ∧ h ≠ 0)
    ∧ ∃ trPoll rest, (recreateSwapChain N s inp).2 = trPoll ++ rest
        ∧ (∀ e ∈ trPoll, ∃ w h, e = Ev.pollFramebufferSize w h)
        ∧ ∀ e ∈ rest, ∀ w h, e ≠ Ev.pollFramebufferSize w h := by
  cases hp : (pollFramebufferSize inp.sizes inp.pollFuel 0).1 with
  | none =>
    rw [recreateSwapChain_blocked N s inp hp]
    refine ⟨fun _ e he => (pollFramebufferSize_spec inp.sizes inp.pollFuel 0).2 e he,
      trivial, fun w h m hm => ?_,
      ⟨(pollFramebufferSize inp.sizes inp.pollFuel 0).2, [], by simp,
        fun e he => (pollFramebufferSize_spec inp.sizes inp.pollFuel 0).2 e he,
        fun e he => by simp at he⟩⟩
    obtain ⟨w', h', hcon⟩ :=
      (pollFramebufferSize_spec inp.sizes inp.pollFuel 0).2 _ hm
    cases hcon
  | some wh =>
    have hwz : wh.1 ≠ 0 ∧ wh.2 ≠ 0 := by
      have := (pollFramebufferSize_spec inp.sizes inp.pollFuel 0).1 wh.1 wh.2
      exact this (by rw [hp])
    rw [recreateSwapChain_some N s inp wh hp]
    refine ⟨?_, ?_, fun w h m hm => ?_, ?_⟩
    · intro hc
      cases hc
    · simp only [Option.elim]
      exact ⟨hwz.1, hwz.2⟩
    · simp only [List.mem_append, List.mem_cons, List.not_mem_nil, or_false,
        List.mem_map] at hm
      rcases hm with ((hp' | hp') | (((⟨x, hx, hp'⟩ | ⟨x, hx, hp'⟩) | hp')
          | ⟨x, hx, hp'⟩)) | (hp' | hp')
      · obtain ⟨w', h', hcon⟩ :=
          (pollFramebufferSize_spec inp.sizes inp.pollFuel 0).2 _ hp'
        cases hcon
      all_goals first
        | (obtain ⟨rfl, rfl, rfl⟩ := hp'; exact hwz)
        | (cases hp')
    · refine ⟨(pollFramebufferSize inp.sizes inp.pollFuel 0).2,
        [Ev.deviceWaitIdle]
          ++ (s.framebuffers.map Ev.destroyFramebuffer
              ++ s.imageViews.map Ev.destroyImageView
              ++ [Ev.destroySwapchain]
              ++ s.sync.renderFinished.map fun sem => Ev.destroySemaphore sem.id)
          ++ [Ev.createSwapchain wh.1 wh.2 inp.newImageCount,
              Ev.createSyncObjectsCall], by simp,
        fun e he => (pollFramebufferSize_spec inp.sizes inp.pollFuel 0).2 e he,
        fun e he => ?_⟩
      simp only [List.mem_append, List.mem_cons, List.not_mem_nil, or_false,
        List.mem_map] at he
      rcases he with (rfl | (((⟨x, hx, rfl⟩ | ⟨x, hx, rfl⟩) | rfl)
          | ⟨x, hx, rfl⟩)) | (rfl | rfl)
      all_goals intro w h hcon
      all_goals cases hcon

/-- Witness for C7: a window minimized for 5 reads keeps the rebuild polling
(blocked, nothing destroyed); once it reports 800x600 the rebuild completes
with a non-zero extent. -/
theorem rebuild_polls_until_nonzero_extent_witness :
    ((recreateSwapChain 2 sampleState minimizedRecreate).1 = none)
    ∧ (∃ w h, Ev.pollFramebufferSize 0 0 = Ev.pollFramebufferSize w h)
    ∧ ((recreateSwapChain 2 sampleState recoveredRecreate).1.elim True
        fun s' => s'.extentW ≠ 0 ∧ s'.extentH ≠ 0) := by
  refine ⟨by decide, ?_, (rebuild_polls_until_nonzero_extent 2 sampleState
    recoveredRecreate).2.1⟩
  exact (rebuild_polls_until_nonzero_extent 2 sampleState minimizedRecreate).1
    (by decide) (Ev.pollFramebufferSize 0 0) (by decide)

/-- **C1** (refuting evaluation): the spec and the code's own comments
(TriangleApp.cpp:440-443 and 458) say a rebuild leaves the frame-slot state —
fences, image-available semaphores, command buffers — untouched, but
`recreateSwapChain` passes all three vectors to
`Synchronization::createSyncObjects`, which re-creates every element: after
one rebuild of the 3-image / 2-slot app the two inFlight fences and the two
imageAvailable semaphores are fresh handles (18, 19 and 13, 14 in place of
5, 6 and 0, 1 — the old objects are never destroyed and leak), while the
command buffers are indeed untouched. -/
theorem recreate_replaces_frame_slot_objects :
    ((recreateSwapChain 2 sampleState sampleRecreate).1.map fun s' =>
        (s'.sync.inFlight.map Fence.id, s'.sync.imageAvailable.map Semaphore.id,
          s'.commandBuffers))
      = some ([18, 19], [13, 14], [1000, 1001])
    ∧ sampleState.sync.inFlight.map Fence.id = [5, 6]
    ∧ sampleState.sync.imageAvailable.map Semaphore.id = [0, 1]
    ∧ sampleState.commandBuffers = [1000, 1001] := by decide

/-- All completion fences coming out of `createSyncObjects` are signaled. -/
theorem createSyncObjects_fences_all_signaled (m n k : Nat) :
    ((createSyncObjects m n k).1.inFlight.all fun fc => fc.signaled) = true := by
  rw [List.all_eq_true]
  intro fc hfc
  simp only [createSyncObjects, List.mem_map, List.mem_range] at hfc
  obtain ⟨i, hi, rfl⟩ := hfc
  rfl

/-- Membership in `trAcq` only yields the wait and acquire calls. -/
theorem trAcq_no_frame_work (s : AppState) :
    ∀ e ∈ trAcq s, e.isFrameWork = false := by
  intro e he
  simp only [trAcq, List.mem_cons, List.not_mem_nil, or_false] at he
  rcases he with rfl | rfl <;> rfl

/-- **C3**: when acquisition reports the surface is out-of-date, the
iteration is abandoned atomically: no fence reset, uniform update,
command-buffer recording, submission or presentation call is issued, nothing
is thrown, the current-slot counter is unchanged on return, and every
completion fence is signaled on return (the rebuild's idle-wait is in the
trace when it completes), so the next iteration retries acquisition with the
same slot from a clean state. -/
theorem acquire_out_of_date_abandons_iteration
    (N : Nat) (s : AppState) (inp : DrawInputs)
    (ha : inp.acquireResult = VkResult.errorOutOfDateKHR) :
    (∀ e ∈ (drawFrame N s inp).traceOf, e.isFrameWork = false)
    ∧ (drawFrame N s inp).isFatal = false
    ∧ ((drawFrame N s inp).stateOf.elim True fun s' =>
        s'.currentFrame = s.currentFrame
        ∧ (s'.sync.inFlight.all fun fc => fc.signaled) = true)
    ∧ ((drawFrame N s inp).isOk = true →
        Ev.deviceWaitIdle ∈ (drawFrame N s inp).traceOf) := by
  obtain ⟨ar, ii, sr, pr, rc⟩ := inp
  subst ha
  rw [drawFrame_eq_out_of_date]
  cases hrec : recreateSwapChain N (afterWait s) rc with
  | mk o trR =>
    have htr : ∀ e ∈ trR, Ev.isRebuild e = true := by
      have hall := recreateSwapChain_trace_rebuild N (afterWait s) rc
      rw [hrec] at hall
      exact hall
    cases o with
    | none =>
      dsimp only [DrawResult.traceOf, DrawResult.isFatal, DrawResult.stateOf,
        DrawResult.isOk, Option.elim]
      refine ⟨?_, rfl, trivial, fun hcon => by cases hcon⟩
      intro e he
      rcases List.mem_append.mp he with he | he
      · exact trAcq_no_frame_work s e he
      · exact (rebuild_constructor_facts e (htr e he)).1
    | some s2 =>
      cases hp : (pollFramebufferSize rc.sizes rc.pollFuel 0).1 with
      | none =>
        rw [recreateSwapChain_blocked N (afterWait s) rc hp] at hrec
        simp at hrec
      | some wh =>
        rw [recreateSwapChain_some N (afterWait s) rc wh hp] at hrec
        injection hrec with h1 h2
        obtain rfl := Option.some_inj.mp h1
        subst h2
        dsimp only [DrawResult.traceOf, DrawResult.isFatal, DrawResult.stateOf,
          DrawResult.isOk, Option.elim]
        refine ⟨?_, rfl, ⟨rfl, createSyncObjects_fences_all_signaled ..⟩, fun _ => ?_⟩
        · intro e he
          rcases List.mem_append.mp he with he | he
          · exact trAcq_no_frame_work s e he
          · exact (rebuild_constructor_facts e (htr e he)).1
        · simp

/-- Witness for C3 at a concrete out-of-date acquisition. -/
theorem acquire_out_of_date_abandons_iteration_witness :
    ((drawFrame 2 sampleState
        ⟨VkResult.errorOutOfDateKHR, 0, VkResult.success, VkResult.success,
          sampleRecreate⟩).stateOf.elim True fun s' =>
      s'.currentFrame = sampleState.currentFrame
      ∧ (s'.sync.inFlight.all fun fc => fc.signaled) = true) := by
  exact (acquire_out_of_date_abandons_iteration 2 sampleState
    ⟨VkResult.errorOutOfDateKHR, 0, VkResult.success, VkResult.success,
      sampleRecreate⟩ rfl).2.2.1

/-- `trPres` contains exactly one submit and one present call. -/
theorem trPres_counts (s : AppState) (ii : Nat) :
    ((trPres s ii).countP Ev.isQueueSubmit) = 1
    ∧ ((trPres s ii).countP Ev.isQueuePresent) = 1 := by
  constructor <;>
    simp [trPres, trSub, trAcq, List.countP_cons, List.countP_append,
      Ev.isQueueSubmit, Ev.isQueuePresent]

/-- A rebuild trace contains no submit or present call. -/
theorem rebuild_trace_counts_zero (l : List Ev)
    (htr : ∀ e ∈ l, Ev.isRebuild e = true) :
    (l.countP Ev.isQueueSubmit) = 0 ∧ (l.countP Ev.isQueuePresent) = 0 := by
  constructor <;> rw [List.countP_eq_zero] <;> intro e he <;>
    simp [(rebuild_constructor_facts e (htr e he)).2.1,
      (rebuild_constructor_facts e (htr e he)).2.2]

/-- **C5**: every `drawFrame` call that returns normally after reaching
submission performed exactly one submit and one present, and advanced the
current-slot counter to `(currentFrame + 1) % N` — whatever the present
outcome was (success, suboptimal, out-of-date, pending resize flag) — so the
counter always stays in `[0, N)`. -/
theorem drawFrame_advances_slot_mod_N
    (N : Nat) (s : AppState) (inp : DrawInputs) (hN : 0 < N)
    (ha : inp.acquireResult ≠ VkResult.errorOutOfDateKHR)
    (hok : (drawFrame N s inp).isOk = true) :
    ((drawFrame N s inp).stateOf.map AppState.currentFrame)
        = some ((s.currentFrame + 1) % N)
    ∧ (s.currentFrame + 1) % N < N
    ∧ ((drawFrame N s inp).traceOf.countP Ev.isQueueSubmit) = 1
    ∧ ((drawFrame N s inp).traceOf.countP Ev.isQueuePresent) = 1 := by
  obtain ⟨ar, ii, sr, pr, rc⟩ := inp
  have hmod : (s.currentFrame + 1) % N < N := Nat.mod_lt _ hN
  have har : ar = VkResult.success ∨ ar = VkResult.suboptimalKHR := by
    cases ar
    · exact Or.inl rfl
    · exact Or.inr rfl
    · exact absurd rfl ha
    · rw [drawFrame_eq_acquire_fatal] at hok
      cases hok
  by_cases hsr : sr = VkResult.success
  case neg =>
    rw [drawFrame_eq_submit_fatal N s ii ar sr pr rc har hsr] at hok
    cases hok
  case pos =>
    subst hsr
    obtain ⟨cf, fb, sy, cb, iv, fbs, sic, ew, eh, ni⟩ := s
    have hreb : ∀ rcx : RecreateInputs, ∀ sx : AppState,
        (∀ o trR, recreateSwapChain N sx rcx = (o, trR) →
          (∀ e ∈ trR, Ev.isRebuild e = true)) := by
      intro rcx sx o trR hrec
      have hall := recreateSwapChain_trace_rebuild N sx rcx
      rw [hrec] at hall
      exact hall
    cases fb with
    | true =>
      rw [drawFrame_eq_rebuild_resized N cf sy cb iv fbs sic ew eh ni ii ar pr rc har]
        at hok ⊢
      cases hrec : recreateSwapChain N
          { afterSubmit ⟨cf, true, sy, cb, iv, fbs, sic, ew, eh, ni⟩ with
            framebufferResized := false } rc with
      | mk o trR =>
        rw [hrec] at hok
        cases o with
        | none => cases hok
        | some s5 =>
          have h5 : s5.currentFrame = cf := by
            cases hp : (pollFramebufferSize rc.sizes rc.pollFuel 0).1 with
            | none =>
              rw [recreateSwapChain_blocked _ _ _ hp] at hrec
              simp at hrec
            | some wh =>
              rw [recreateSwapChain_some _ _ _ wh hp] at hrec
              injection hrec with h1 h2
              obtain rfl := Option.some_inj.mp h1
              rfl
          have hz := rebuild_trace_counts_zero trR (hreb rc _ (some s5) trR hrec)
          dsimp only [DrawResult.stateOf, DrawResult.traceOf, Option.map, advance]
          rw [List.countP_append, List.countP_append, h5,
            (trPres_counts _ ii).1, (trPres_counts _ ii).2, hz.1, hz.2]
          exact ⟨rfl, hmod, rfl, rfl⟩
    | false =>
      cases pr with
      | success =>
        rw [drawFrame_eq_present_ok N cf sy cb iv fbs sic ew eh ni ii ar rc har]
        dsimp only [DrawResult.stateOf, DrawResult.traceOf, Option.map, advance]
        rw [(trPres_counts _ ii).1, (trPres_counts _ ii).2]
        exact ⟨rfl, hmod, rfl, rfl⟩
      | errorOther =>
        rw [drawFrame_eq_present_fatal N cf sy cb iv fbs sic ew eh ni ii ar rc har]
          at hok
        cases hok
      | suboptimalKHR =>
        rw [drawFrame_eq_rebuild N ⟨cf, false, sy, cb, iv, fbs, sic, ew, eh, ni⟩
          ii ar _ rc har (Or.inr rfl)] at hok ⊢
        cases hrec : recreateSwapChain N
            { afterSubmit ⟨cf, false, sy, cb, iv, fbs, sic, ew, eh, ni⟩ with
              framebufferResized := false } rc with
        | mk o trR =>
          rw [hrec] at hok
          cases o with
          | none => cases hok
          | some s5 =>
            have h5 : s5.currentFrame = cf := by
              cases hp : (pollFramebufferSize rc.sizes rc.pollFuel 0).1 with
              | none =>
                rw [recreateSwapChain_blocked _ _ _ hp] at hrec
                simp at hrec
              | some wh =>
                rw [recreateSwapChain_some _ _ _ wh hp] at hrec
                injection hrec with h1 h2
                obtain rfl := Option.some_inj.mp h1
                rfl
            have hz := rebuild_trace_counts_zero trR
              (hreb rc _ (some s5) trR hrec)
            dsimp only [DrawResult.stateOf, DrawResult.traceOf, Option.map, advance]
            rw [List.countP_append, List.countP_append, h5,
              (trPres_counts _ ii).1, (trPres_counts _ ii).2, hz.1, hz.2]
            exact ⟨rfl, hmod, rfl, rfl⟩
      | errorOutOfDateKHR =>
        rw [drawFrame_eq_rebuild N ⟨cf, false, sy, cb, iv, fbs, sic, ew, eh, ni⟩
          ii ar _ rc har (Or.inl rfl)] at hok ⊢
        cases hrec : recreateSwapChain N
            { afterSubmit ⟨cf, false, sy, cb, iv, fbs, sic, ew, eh, ni⟩ with
              framebufferResized := false } rc with
        | mk o trR =>
          rw [hrec] at hok
          cases o with
          | none => cases hok
          | some s5 =>
            have h5 : s5.currentFrame = cf := by
              cases hp : (pollFramebufferSize rc.sizes rc.pollFuel 0).1 with
              | none =>
                rw [recreateSwapChain_blocked _ _ _ hp] at hrec
                simp at hrec
              | some wh =>
                rw [recreateSwapChain_some _ _ _ wh hp] at hrec
                injection hrec with h1 h2
                obtain rfl := Option.some_inj.mp h1
                rfl
            have hz := rebuild_trace_counts_zero trR
              (hreb rc _ (some s5) trR hrec)
            dsimp only [DrawResult.stateOf, DrawResult.traceOf, Option.map, advance]
            rw [List.countP_append, List.countP_append, h5,
              (trPres_counts _ ii).1, (trPres_counts _ ii).2, hz.1, hz.2]
            exact ⟨rfl, hmod, rfl, rfl⟩

/-- Witness for C5: a successful iteration from slot 0 of the 2-slot app
advances the counter to 1. -/
theorem drawFrame_advances_slot_mod_N_witness :
    0 < 2
    ∧ ((drawFrame 2 sampleState
        ⟨VkResult.success, 1, VkResult.success, VkResult.success,
          sampleRecreate⟩).stateOf.map AppState.currentFrame)
      = some ((sampleState.currentFrame + 1) % 2) := by
  exact ⟨by decide, (drawFrame_advances_slot_mod_N 2 sampleState
    ⟨VkResult.success, 1, VkResult.success, VkResult.success, sampleRecreate⟩
    (by decide) (by decide) (by decide)).1⟩

/-- The submission `drawFrame` issues is in `trSub`. -/
theorem trSub_submit_mem (s : AppState) (ii : Nat) :
    Ev.queueSubmit (iaIdOf s) (rfIdOf s ii) (fenceIdOf s) ∈ trSub s ii := by
  simp [trSub, trAcq]

/-- The only submit call in `trSub` signals `renderFinished[imageIndex]`. -/
theorem trSub_submit_eq (s : AppState) (ii : Nat) (w sg fe : Nat)
    (hm : Ev.queueSubmit w sg fe ∈ trSub s ii) :
    w = iaIdOf s ∧ sg = rfIdOf s ii ∧ fe = fenceIdOf s := by
  simp [trSub, trAcq] at hm
  exact hm

/-- `trSub` contains no present call. -/
theorem trSub_no_present (s : AppState) (ii : Nat) (w j : Nat) :
    Ev.queuePresent w j ∉ trSub s ii := by
  simp [trSub, trAcq]

/-- The only submit call in `trPres` signals `renderFinished[imageIndex]`. -/
theorem trPres_submit_eq (s : AppState) (ii : Nat) (w sg fe : Nat)
    (hm : Ev.queueSubmit w sg fe ∈ trPres s ii) :
    w = iaIdOf s ∧ sg = rfIdOf s ii ∧ fe = fenceIdOf s := by
  simp [trPres, trSub, trAcq] at hm
  exact hm

/-- The only present call in `trPres` waits on `renderFinished[imageIndex]`. -/
theorem trPres_present_eq (s : AppState) (ii : Nat) (w j : Nat)
    (hm : Ev.queuePresent w j ∈ trPres s ii) :
    w = rfIdOf s ii ∧ j = ii := by
  simp [trPres, trSub, trAcq] at hm
  exact hm

/-- A rebuild trace contains no submit call. -/
theorem rebuild_no_submit (l : List Ev) (htr : ∀ e ∈ l, Ev.isRebuild e = true)
    (w sg fe : Nat) : Ev.queueSubmit w sg fe ∉ l :=
  fun hm => Bool.noConfusion (htr _ hm)

/-- A rebuild trace contains no present call. -/
theorem rebuild_no_present (l : List Ev) (htr : ∀ e ∈ l, Ev.isRebuild e = true)
    (w j : Nat) : Ev.queuePresent w j ∉ l :=
  fun hm => Bool.noConfusion (htr _ hm)

/-- **C2**: in every iteration that reaches submission (acquisition returned
success or suboptimal), the semaphore the submit signals and the present
waits on is `renderFinished[imageIndex]` — indexed by the acquired image
index — and no submit or present of the iteration uses any other signal
semaphore, for arbitrary slot and image counts. -/
theorem renderFinished_indexed_by_image_index
    (N : Nat) (s : AppState) (inp : DrawInputs)
    (ha : inp.acquireResult = VkResult.success
        ∨ inp.acquireResult = VkResult.suboptimalKHR) :
    (Ev.queueSubmit (iaIdOf s) (rfIdOf s inp.acquireImageIndex) (fenceIdOf s)
        ∈ (drawFrame N s inp).traceOf)
    ∧ (inp.submitResult = VkResult.success →
        Ev.queuePresent (rfIdOf s inp.acquireImageIndex) inp.acquireImageIndex
          ∈ (drawFrame N s inp).traceOf)
    ∧ (∀ w sg fe, Ev.queueSubmit w sg fe ∈ (drawFrame N s inp).traceOf →
        sg = rfIdOf s inp.acquireImageIndex)
    ∧ (∀ w j, Ev.queuePresent w j ∈ (drawFrame N s inp).traceOf →
        w = rfIdOf s inp.acquireImageIndex ∧ j = inp.acquireImageIndex) := by
  obtain ⟨ar, ii, sr, pr, rc⟩ := inp
  by_cases hsr : sr = VkResult.success
  case neg =>
    rw [drawFrame_eq_submit_fatal N s ii ar sr pr rc ha hsr]
    dsimp only [DrawResult.traceOf]
    refine ⟨trSub_submit_mem s ii, fun h => absurd h hsr,
      fun w sg fe hm => (trSub_submit_eq s ii w sg fe hm).2.1,
      fun w j hm => absurd hm (trSub_no_present s ii w j)⟩
  case pos =>
    subst hsr
    obtain ⟨cf, fb, sy, cb, iv, fbs, sic, ew, eh, ni⟩ := s
    have hreb : ∀ sx : AppState, ∀ o trR,
        recreateSwapChain N sx rc = (o, trR) →
          ∀ e ∈ trR, Ev.isRebuild e = true := by
      intro sx o trR hrec
      have hall := recreateSwapChain_trace_rebuild N sx rc
      rw [hrec] at hall
      exact hall
    have main : ∀ l : List Ev, (∀ e ∈ l, Ev.isRebuild e = true) →
        ∀ s' : AppState, s' = ⟨cf, fb, sy, cb, iv, fbs, sic, ew, eh, ni⟩ →
          (Ev.queueSubmit (iaIdOf s') (rfIdOf s' ii) (fenceIdOf s')
              ∈ trPres s' ii ++ l)
          ∧ (Ev.queuePresent (rfIdOf s' ii) ii ∈ trPres s' ii ++ l)
          ∧ (∀ w sg fe, Ev.queueSubmit w sg fe ∈ trPres s' ii ++ l →
              sg = rfIdOf s' ii)
          ∧ (∀ w j, Ev.queuePresent w j ∈ trPres s' ii ++ l →
              w = rfIdOf s' ii ∧ j = ii) := by
      intro l hl s' _
      refine ⟨?_, ?_, ?_, ?_⟩
      · exact List.mem_append_left l (by simp [trPres, trSub, trAcq])
      · exact List.mem_append_left l (by simp [trPres])
      · intro w sg fe hm
        rcases List.mem_append.mp hm with hm | hm
        · exact (trPres_submit_eq s' ii w sg fe hm).2.1
        · exact absurd hm (rebuild_no_submit l hl w sg fe)
      · intro w j hm
        rcases List.mem_append.mp hm with hm | hm
        · exact trPres_present_eq s' ii w j hm
        · exact absurd hm (rebuild_no_present l hl w j)
    cases fb with
    | true =>
      rw [drawFrame_eq_rebuild_resized N cf sy cb iv fbs sic ew eh ni ii ar pr rc ha]
      cases hrec : recreateSwapChain N
          { afterSubmit ⟨cf, true, sy, cb, iv, fbs, sic, ew, eh, ni⟩ with
            framebufferResized := false } rc with
      | mk o trR =>
        have hl := hreb _ o trR hrec
        obtain ⟨m1, m2, m3, m4⟩ := main trR hl _ rfl
        cases o with
        | none => exact ⟨m1, fun _ => m2, m3, m4⟩
        | some s5 => exact ⟨m1, fun _ => m2, m3, m4⟩
    | false =>
      cases pr with
      | success =>
        rw [drawFrame_eq_present_ok N cf sy cb iv fbs sic ew eh ni ii ar rc ha]
        dsimp only [DrawResult.traceOf]
        refine ⟨by simp [trPres, trSub, trAcq], fun _ => by simp [trPres],
          fun w sg fe hm => (trPres_submit_eq _ ii w sg fe hm).2.1,
          fun w j hm => trPres_present_eq _ ii w j hm⟩
      | errorOther =>
        rw [drawFrame_eq_present_fatal N cf sy cb iv fbs sic ew eh ni ii ar rc ha]
        dsimp only [DrawResult.traceOf]
        refine ⟨by simp [trPres, trSub, trAcq], fun _ => by simp [trPres],
          fun w sg fe hm => (trPres_submit_eq _ ii w sg fe hm).2.1,
          fun w j hm => trPres_present_eq _ ii w j hm⟩
      | suboptimalKHR =>
        rw [drawFrame_eq_rebuild N ⟨cf, false, sy, cb, iv, fbs, sic, ew, eh, ni⟩
          ii ar _ rc ha (Or.inr rfl)]
        cases hrec : recreateSwapChain N
            { afterSubmit ⟨cf, false, sy, cb, iv, fbs, sic, ew, eh, ni⟩ with
              framebufferResized := false } rc with
        | mk o trR =>
          have hl := hreb _ o trR hrec
          obtain ⟨m1, m2, m3, m4⟩ := main trR hl _ rfl
          cases o with
          | none => exact ⟨m1, fun _ => m2, m3, m4⟩
          | some s5 => exact ⟨m1, fun _ => m2, m3, m4⟩
      | errorOutOfDateKHR =>
        rw [drawFrame_eq_rebuild N ⟨cf, false, sy, cb, iv, fbs, sic, ew, eh, ni⟩
          ii ar _ rc ha (Or.inl rfl)]
        cases hrec : recreateSwapChain N
            { afterSubmit ⟨cf, false, sy, cb, iv, fbs, sic, ew, eh, ni⟩ with
              framebufferResized := false } rc with
        | mk o trR =>
          have hl := hreb _ o trR hrec
          obtain ⟨m1, m2, m3, m4⟩ := main trR hl _ rfl
          cases o with
          | none => exact ⟨m1, fun _ => m2, m3, m4⟩
          | some s5 => exact ⟨m1, fun _ => m2, m3, m4⟩

/-- Witness for C2: slot 0 submits and presents with `renderFinished[2]` when
image 2 of 3 is acquired (handles 0/4/5 are imageAvailable[0] /
renderFinished[2] / inFlight[0]). -/
theorem renderFinished_indexed_by_image_index_witness :
    Ev.queueSubmit (iaIdOf sampleState) (rfIdOf sampleState 2) (fenceIdOf sampleState)
        ∈ (drawFrame 2 sampleState
          ⟨VkResult.success, 2, VkResult.success, VkResult.success,
            sampleRecreate⟩).traceOf
    ∧ rfIdOf sampleState 2 = 4 := by
  refine ⟨(renderFinished_indexed_by_image_index 2 sampleState
    ⟨VkResult.success, 2, VkResult.success, VkResult.success, sampleRecreate⟩
    (Or.inl rfl)).1, by decide⟩

/-- `trPres` contains no rebuild call. -/
theorem trPres_no_rebuild (s : AppState) (ii : Nat) :
    ∀ e ∈ trPres s ii, e.isRebuild = false := by
  intro e he
  simp only [trPres, trSub, trAcq, List.mem_append, List.mem_cons,
    List.not_mem_nil, or_false] at he
  rcases he with ((rfl | rfl) | (rfl | rfl | rfl | rfl | rfl)) | rfl <;> rfl

/-- A completed rebuild's trace contains its idle-wait. -/
theorem recreateSwapChain_some_waitIdle (N : Nat) (s : AppState)
    (inp : RecreateInputs) (s' : AppState) (trR : List Ev)
    (h : recreateSwapChain N s inp = (some s', trR)) :
    Ev.deviceWaitIdle ∈ trR := by
  cases hp : (pollFramebufferSize inp.sizes inp.pollFuel 0).1 with
  | none =>
    rw [recreateSwapChain_blocked N s inp hp] at h
    simp at h
  | some wh =>
    rw [recreateSwapChain_some N s inp wh hp] at h
    injection h with h1 h2
    subst h2
    simp

/-- **C4** (counterexample): with acquisition reporting suboptimal, a
successful presentation and no pending resize flag, the iteration completes
normally and issues no rebuild call at all — refuting the claim that a
suboptimal acquisition always triggers a rebuild after presenting. -/
theorem acquire_suboptimal_no_rebuild_counterexample :
    ((drawFrame 2 sampleState
        ⟨VkResult.suboptimalKHR, 1, VkResult.success, VkResult.success,
          sampleRecreate⟩).isOk = true)
    ∧ ((drawFrame 2 sampleState
        ⟨VkResult.suboptimalKHR, 1, VkResult.success, VkResult.success,
          sampleRecreate⟩).traceOf.countP Ev.isRebuild) = 0 := by decide

/-- **C4 (amended)**: when acquisition reports suboptimal, the iteration
proceeds normally — fence reset, command-buffer recording, exactly one
submit and one present — but a swapchain rebuild happens after presenting
if and only if presentation itself reports out-of-date or suboptimal or the
external resize flag is pending; a suboptimal acquisition alone does not
schedule one. -/
theorem acquire_suboptimal_rebuild_iff_present_demands
    (N : Nat) (s : AppState) (inp : DrawInputs)
    (ha : inp.acquireResult = VkResult.suboptimalKHR)
    (hok : (drawFrame N s inp).isOk = true) :
    Ev.resetFences (fenceIdOf s) ∈ (drawFrame N s inp).traceOf
    ∧ Ev.recordCommandBuffer (cbIdOf s) inp.acquireImageIndex s.currentFrame
        ∈ (drawFrame N s inp).traceOf
    ∧ ((drawFrame N s inp).traceOf.countP Ev.isQueueSubmit) = 1
    ∧ ((drawFrame N s inp).traceOf.countP Ev.isQueuePresent) = 1
    ∧ ((∃ e ∈ (drawFrame N s inp).traceOf, e.isRebuild = true)
        ↔ (inp.presentResult = VkResult.errorOutOfDateKHR
            ∨ inp.presentResult = VkResult.suboptimalKHR
            ∨ s.framebufferResized = true)) := by
  obtain ⟨ar, ii, sr, pr, rc⟩ := inp
  subst ha
  by_cases hsr : sr = VkResult.success
  case neg =>
    rw [drawFrame_eq_submit_fatal N s ii _ sr pr rc (Or.inr rfl) hsr] at hok
    cases hok
  case pos =>
    subst hsr
    obtain ⟨cf, fb, sy, cb, iv, fbs, sic, ew, eh, ni⟩ := s
    have hreb : ∀ sx : AppState, ∀ o trR,
        recreateSwapChain N sx rc = (o, trR) →
          ∀ e ∈ trR, Ev.isRebuild e = true := by
      intro sx o trR hrec
      have hall := recreateSwapChain_trace_rebuild N sx rc
      rw [hrec] at hall
      exact hall
    cases fb with
    | true =>
      rw [drawFrame_eq_rebuild_resized N cf sy cb iv fbs sic ew eh ni ii _ pr rc
        (Or.inr rfl)] at hok ⊢
      cases hrec : recreateSwapChain N
          { afterSubmit ⟨cf, true, sy, cb, iv, fbs, sic, ew, eh, ni⟩ with
            framebufferResized := false } rc with
      | mk o trR =>
        rw [hrec] at hok
        cases o with
        | none => cases hok
        | some s5 =>
          have hz := rebuild_trace_counts_zero trR (hreb _ (some s5) trR hrec)
          dsimp only [DrawResult.traceOf]
          refine ⟨List.mem_append_left trR (by simp [trPres, trSub, trAcq]),
            List.mem_append_left trR (by simp [trPres, trSub, trAcq]), ?_, ?_, ?_⟩
          · rw [List.countP_append, (trPres_counts _ ii).1, hz.1]
          · rw [List.countP_append, (trPres_counts _ ii).2, hz.2]
          · refine iff_of_true ⟨Ev.deviceWaitIdle, List.mem_append_right _
              (recreateSwapChain_some_waitIdle N _ rc s5 trR hrec), rfl⟩
              (Or.inr (Or.inr rfl))
    | false =>
      cases pr with
      | success =>
        rw [drawFrame_eq_present_ok N cf sy cb iv fbs sic ew eh ni ii _ rc
          (Or.inr rfl)]
        dsimp only [DrawResult.traceOf]
        refine ⟨by simp [trPres, trSub, trAcq], by simp [trPres, trSub, trAcq],
          (trPres_counts _ ii).1, (trPres_counts _ ii).2, ?_⟩
        refine iff_of_false ?_ (by simp)
        rintro ⟨e, he, hre⟩
        rw [trPres_no_rebuild _ ii e he] at hre
        cases hre
      | errorOther =>
        rw [drawFrame_eq_present_fatal N cf sy cb iv fbs sic ew eh ni ii _ rc
          (Or.inr rfl)] at hok
        cases hok
      | suboptimalKHR =>
        rw [drawFrame_eq_rebuild N ⟨cf, false, sy, cb, iv, fbs, sic, ew, eh, ni⟩
          ii _ _ rc (Or.inr rfl) (Or.inr rfl)] at hok ⊢
        cases hrec : recreateSwapChain N
            { afterSubmit ⟨cf, false, sy, cb, iv, fbs, sic, ew, eh, ni⟩ with
              framebufferResized := false } rc with
        | mk o trR =>
          rw [hrec] at hok
          cases o with
          | none => cases hok
          | some s5 =>
            have hz := rebuild_trace_counts_zero trR (hreb _ (some s5) trR hrec)
            dsimp only [DrawResult.traceOf]
            refine ⟨List.mem_append_left trR (by simp [trPres, trSub, trAcq]),
              List.mem_append_left trR (by simp [trPres, trSub, trAcq]), ?_, ?_, ?_⟩
            · rw [List.countP_append, (trPres_counts _ ii).1, hz.1]
            · rw [List.countP_append, (trPres_counts _ ii).2, hz.2]
            · refine iff_of_true ⟨Ev.deviceWaitIdle, List.mem_append_right _
                (recreateSwapChain_some_waitIdle N _ rc s5 trR hrec), rfl⟩
                (Or.inr (Or.inl rfl))
      | errorOutOfDateKHR =>
        rw [drawFrame_eq_rebuild N ⟨cf, false, sy, cb, iv, fbs, sic, ew, eh, ni⟩
          ii _ _ rc (Or.inr rfl) (Or.inl rfl)] at hok ⊢
        cases hrec : recreateSwapChain N
            { afterSubmit ⟨cf, false, sy, cb, iv, fbs, sic, ew, eh, ni⟩ with
              framebufferResized := false } rc with
        | mk o trR =>
          rw [hrec] at hok
          cases o with
          | none => cases hok
          | some s5 =>
            have hz := rebuild_trace_counts_zero trR (hreb _ (some s5) trR hrec)
            dsimp only [DrawResult.traceOf]
            refine ⟨List.mem_append_left trR (by simp [trPres, trSub, trAcq]),
              List.mem_append_left trR (by simp [trPres, trSub, trAcq]), ?_, ?_, ?_⟩
            · rw [List.countP_append, (trPres_counts _ ii).1, hz.1]
            · rw [List.countP_append, (trPres_counts _ ii).2, hz.2]
            · refine iff_of_true ⟨Ev.deviceWaitIdle, List.mem_append_right _
                (recreateSwapChain_some_waitIdle N _ rc s5 trR hrec), rfl⟩
                (Or.inl rfl)

/-- Witness for amended C4: suboptimal acquire with suboptimal present does
rebuild, and the iteration submits exactly once. -/
theorem acquire_suboptimal_rebuild_iff_witness :
    ((drawFrame 2 sampleState
        ⟨VkResult.suboptimalKHR, 1, VkResult.success, VkResult.suboptimalKHR,
          sampleRecreate⟩).isOk = true)
    ∧ ((drawFrame 2 sampleState
        ⟨VkResult.suboptimalKHR, 1, VkResult.success, VkResult.suboptimalKHR,
          sampleRecreate⟩).traceOf.countP Ev.isQueueSubmit) = 1 := by
  exact ⟨by decide, (acquire_suboptimal_rebuild_iff_present_demands 2 sampleState
    ⟨VkResult.suboptimalKHR, 1, VkResult.success, VkResult.suboptimalKHR,
      sampleRecreate⟩ rfl (by decide)).2.2.1⟩

/-- **C8** (counterexample): a presentation failure that is neither
out-of-date nor suboptimal does NOT raise an error when the external resize
flag is pending — the resize check precedes the error check, so the failure
is swallowed and handled as a rebuild, refuting the claim that such failures
always raise a fatal error. -/
theorem resize_flag_masks_present_failure_counterexample :
    ((drawFrame 2 { sampleState with framebufferResized := true }
        ⟨VkResult.success, 1, VkResult.success, VkResult.errorOther,
          sampleRecreate⟩).isFatal = false)
    ∧ ((drawFrame 2 { sampleState with framebufferResized := true }
        ⟨VkResult.success, 1, VkResult.success, VkResult.errorOther,
          sampleRecreate⟩).isOk = true) := by decide

/-- **C8 (amended)**: once an iteration reaches submission, a submission
failure raises the fatal "failed to submit draw command buffer!" error, and a
presentation failure that is neither out-of-date nor suboptimal raises the
fatal "failed to present swap chain image!" error — provided no external
resize notification is pending, since the resize check precedes the error
check and masks it; out-of-date / suboptimal presentation and a pending
resize flag are never surfaced as errors but handled by rebuild.  (A thrown
error propagates out of `mainLoop` uncaught and aborts the run loop.) -/
theorem fatal_errors_vs_rebuild_outcomes
    (N : Nat) (s : AppState) (inp : DrawInputs)
    (ha : inp.acquireResult = VkResult.success
        ∨ inp.acquireResult = VkResult.suboptimalKHR) :
    (inp.submitResult ≠ VkResult.success →
      (drawFrame N s inp).fatalMsg = some "failed to submit draw command buffer!")
    ∧ (inp.submitResult = VkResult.success →
        inp.presentResult = VkResult.errorOther → s.framebufferResized = false →
      (drawFrame N s inp).fatalMsg = some "failed to present swap chain image!")
    ∧ (inp.submitResult = VkResult.success →
        (inp.presentResult = VkResult.errorOutOfDateKHR
          ∨ inp.presentResult = VkResult.suboptimalKHR
          ∨ s.framebufferResized = true) →
      (drawFrame N s inp).isFatal = false
      ∧ ((drawFrame N s inp).isOk = true →
          ∃ e ∈ (drawFrame N s inp).traceOf, e.isRebuild = true)) := by
  obtain ⟨ar, ii, sr, pr, rc⟩ := inp
  obtain ⟨cf, fb, sy, cb, iv, fbs, sic, ew, eh, ni⟩ := s
  refine ⟨fun hsr => ?_, fun hsr hpr hfb => ?_, fun hsr hpr => ?_⟩
  · rw [drawFrame_eq_submit_fatal N _ ii ar sr pr rc ha hsr]
    rfl
  · subst hsr
    subst hpr
    cases fb with
    | true => cases hfb
    | false =>
      rw [drawFrame_eq_present_fatal N cf sy cb iv fbs sic ew eh ni ii ar rc ha]
      rfl
  · subst hsr
    cases fb with
    | true =>
      rw [drawFrame_eq_rebuild_resized N cf sy cb iv fbs sic ew eh ni ii ar pr rc ha]
      cases hrec : recreateSwapChain N
          { afterSubmit ⟨cf, true, sy, cb, iv, fbs, sic, ew, eh, ni⟩ with
            framebufferResized := false } rc with
      | mk o trR =>
        cases o with
        | none => exact ⟨rfl, fun hcon => by cases hcon⟩
        | some s5 =>
          refine ⟨rfl, fun _ => ⟨Ev.deviceWaitIdle, List.mem_append_right _
            (recreateSwapChain_some_waitIdle N _ rc s5 trR hrec), rfl⟩⟩
    | false =>
      rcases hpr with rfl | rfl | hc
      · rw [drawFrame_eq_rebuild N ⟨cf, false, sy, cb, iv, fbs, sic, ew, eh, ni⟩
          ii ar _ rc ha (Or.inl rfl)]
        cases hrec : recreateSwapChain N
            { afterSubmit ⟨cf, false, sy, cb, iv, fbs, sic, ew, eh, ni⟩ with
              framebufferResized := false } rc with
        | mk o trR =>
          cases o with
          | none => exact ⟨rfl, fun hcon => by cases hcon⟩
          | some s5 =>
            refine ⟨rfl, fun _ => ⟨Ev.deviceWaitIdle, List.mem_append_right _
              (recreateSwapChain_some_waitIdle N _ rc s5 trR hrec), rfl⟩⟩
      · rw [drawFrame_eq_rebuild N ⟨cf, false, sy, cb, iv, fbs, sic, ew, eh, ni⟩
          ii ar _ rc ha (Or.inr rfl)]
        cases hrec : recreateSwapChain N
            { afterSubmit ⟨cf, false, sy, cb, iv, fbs, sic, ew, eh, ni⟩ with
              framebufferResized := false } rc with
        | mk o trR =>
          cases o with
          | none => exact ⟨rfl, fun hcon => by cases hcon⟩
          | some s5 =>
            refine ⟨rfl, fun _ => ⟨Ev.deviceWaitIdle, List.mem_append_right _
              (recreateSwapChain_some_waitIdle N _ rc s5 trR hrec), rfl⟩⟩
      · cases hc

/-- Witness for amended C8: a concrete submission failure raises the
documented fatal error. -/
theorem fatal_errors_vs_rebuild_outcomes_witness :
    (drawFrame 2 sampleState
        ⟨VkResult.success, 1, VkResult.errorOther, VkResult.success,
          sampleRecreate⟩).fatalMsg
      = some "failed to submit draw command buffer!" := by
  exact (fatal_errors_vs_rebuild_outcomes 2 sampleState
    ⟨VkResult.success, 1, VkResult.errorOther, VkResult.success, sampleRecreate⟩
    (Or.inl rfl)).1 (by decide)

/-- **C9**: the uniform-buffer update is a deterministic pure function of
elapsed time and render extent: two invocations with equal elapsed times and
equal extents produce bit-identical model/view/projection matrices; a second
call at the same clock value writes the identical object and leaves the
state unchanged; and the captured start-time is the only retained state —
set on the first call and never overwritten. -/
theorem updateUniformBuffer_pure_in_elapsed_and_extent
    (g : GlmOps) (s s' : AnimState) (now now' t0 t0' : ℚ) (i i' : Nat)
    (h1 : s.startTime = some t0) (h2 : s'.startTime = some t0')
    (het : now - t0 = now' - t0')
    (hw : s.extentW = s'.extentW) (hh : s.extentH = s'.extentH) :
    (updateUniformBuffer g s now i).2 = (updateUniformBuffer g s' now' i').2
    ∧ (updateUniformBuffer g s now i).1.startTime = some t0
    ∧ (updateUniformBuffer g (updateUniformBuffer g s now i).1 now i).2
        = (updateUniformBuffer g s now i).2
    ∧ (updateUniformBuffer g (updateUniformBuffer g s now i).1 now i).1
        = (updateUniformBuffer g s now i).1 := by
  refine ⟨?_, ?_, ?_, ?_⟩
  · simp [updateUniformBuffer, h1, h2, hw, hh, het]
  · simp [updateUniformBuffer, h1]
  · simp [updateUniformBuffer, h1]
  · simp [updateUniformBuffer, h1, List.set_set]

/-- Witness for C9 at a concrete GLM instantiation and state. -/
theorem updateUniformBuffer_pure_witness :
    animS.startTime = some 0
    ∧ (updateUniformBuffer constGlm (updateUniformBuffer constGlm animS 1 0).1 1 0).2
        = (updateUniformBuffer constGlm animS 1 0).2
    ∧ (updateUniformBuffer constGlm (updateUniformBuffer constGlm animS 1 0).1 1 0).1
        = (updateUniformBuffer constGlm animS 1 0).1 := by
  refine ⟨rfl, ?_, ?_⟩
  · exact (updateUniformBuffer_pure_in_elapsed_and_extent constGlm animS animS
      1 1 0 0 0 0 rfl rfl rfl rfl rfl).2.2.1
  · exact (updateUniformBuffer_pure_in_elapsed_and_extent constGlm animS animS
      1 1 0 0 0 0 rfl rfl rfl rfl rfl).2.2.2

end VulkanStuff
